import Mathlib

/-!
# Verification of the defi-crowdfunding front-end page component

Shallow embedding of the logic of `src/app/page.tsx` and its two earlier
iterations (the unnamed source files): the `createCampaign` send-with-retry
loop, the `ensureBalance` faucet helper, the `getCampaigns` account listing,
the program-id resolution from the IDL address with its base58 fallback,
the `checkIfWalletIsConnected` wallet probe of each iteration, and the
`donateToCampaign` state resets.  External services (the RPC connection,
the wallet, the Anchor program) are modelled as explicit environments whose
calls may return values or throw `JsError`s; the component functions are
translated statement-by-statement from the TypeScript.
-/

/-- A thrown JavaScript error as the catch handlers inspect it:
`message`, the Anchor `error.code`, the constructor `name`, and the nested
`error.name` (`anyErr?.error?.name` in the source). -/
structure JsError where
  message : String
  code : Option Nat := none
  name : Option String := none
  errorName : Option String := none
deriving DecidableEq

/-- `listStartsWith p s` is true when `p` is an initial segment of `s`
(character-list form of JavaScript prefix matching). -/
def listStartsWith : List Char → List Char → Bool
  | [], _ => true
  | _ :: _, [] => false
  | p :: ps, c :: cs => p = c && listStartsWith ps cs

/-- `listContainsSub pat s` is true when `pat` occurs contiguously in `s`. -/
def listContainsSub (pat : List Char) : List Char → Bool
  | [] => pat.isEmpty
  | c :: rest => listStartsWith pat (c :: rest) || listContainsSub pat rest

/-- JavaScript `s.includes(pat)`: substring containment test, used by the
retry loop and every catch handler in the page component. -/
def jsIncludes (s pat : String) : Bool :=
  listContainsSub pat.toList s.toList

/-- The outcome of one `provider.sendAndConfirm` attempt inside the retry
loop: a signature on success, a thrown `JsError` on failure. -/
inductive SendOutcome where
  | success (signature : String)
  | failure (err : JsError)
deriving DecidableEq

/-- The stale-blockhash test of the retry loop in `createCampaign`:
`msg.includes('Blockhash not found') || msg.includes('blockhash expired')`. -/
def isBlockhashMsg (msg : String) : Bool :=
  jsIncludes msg "Blockhash not found" || jsIncludes msg "blockhash expired"

/-- Observable result of the retry loop: the final value of `attempt`, the
final value of `lastErr`, the `setTimeout` delays slept in the blockhash
branch, and how many times the recent blockhash was refreshed there. -/
structure RetryResult where
  attemptsMade : Nat
  lastErr : Option JsError
  retryDelaysMs : List Nat
  blockhashRefreshes : Nat
deriving DecidableEq

/-- One-for-one translation of the `while (attempt < maxAttempts)` loop of
`createCampaign`: `fuel = maxAttempts - attempt` counts the remaining
iterations, `attempt` is incremented on entry, a successful send clears
`lastErr` and breaks, a failure stores the error and either refreshes the
blockhash plus sleeps `800 * attempt` ms and continues (stale-blockhash
message) or breaks. -/
def sendRetryGo (send : Nat → SendOutcome) : Nat → Nat → Option JsError → RetryResult
  | 0, attempt, lastErr => ⟨attempt, lastErr, [], 0⟩
  | fuel + 1, attempt, _ =>
    let a := attempt + 1
    match send a with
    | .success _ => ⟨a, none, [], 0⟩
    | .failure e =>
      if isBlockhashMsg e.message then
        let r := sendRetryGo send fuel a (some e)
        ⟨r.attemptsMade, r.lastErr, 800 * a :: r.retryDelaysMs, r.blockhashRefreshes + 1⟩
      else ⟨a, some e, [], 0⟩

/-- The retry loop as entered by `createCampaign`: `maxAttempts = 4`,
`attempt = 0`, `lastErr = null`. -/
def sendRetry (send : Nat → SendOutcome) : RetryResult :=
  sendRetryGo send 4 0 none

/-- `if (lastErr) throw lastErr;` after the loop: the send phase surfaces
the last error, or returns normally. -/
def sendPhaseResult (send : Nat → SendOutcome) : Except JsError Unit :=
  match (sendRetry send).lastErr with
  | some e => .error e
  | none => .ok ()

/-- The catch handler of `createCampaign` in `page.tsx`: the Anchor
`DeclaredProgramIdMismatch` detection (`code === 4100`, or an `AnchorError`
whose nested error name or message mentions the mismatch). -/
def isDeclaredMismatch (e : JsError) : Bool :=
  e.code == some 4100 ||
    (e.name == some "AnchorError" &&
      (e.errorName == some "DeclaredProgramIdMismatch" ||
        jsIncludes e.message "DeclaredProgramIdMismatch"))

/-- The status message `createCampaign`'s catch handler writes for a thrown
error, following its three branches in order. -/
def createCatchStatus (e : JsError) : String :=
  if isDeclaredMismatch e then
    "Error creating campaign: DeclaredProgramIdMismatch. Check `src/idl.js` address or use the correct program id."
  else if jsIncludes e.message "User rejected" || jsIncludes e.message "User rejected the request" then
    "Transaction cancelled by user. Please approve the transaction in your wallet."
  else
    "Error creating campaign: " ++ e.message

/-- The `walletStatus` value produced by the send phase of `createCampaign`:
success sets the success banner, a surfaced `lastErr` goes through the catch
handler. -/
def createCampaignSendStatus (send : Nat → SendOutcome) : String :=
  match (sendRetry send).lastErr with
  | none => "Campaign created successfully!"
  | some e => createCatchStatus e

theorem sendRetryGo_zero (send : Nat → SendOutcome) (attempt : Nat) (lastErr : Option JsError) :
    sendRetryGo send 0 attempt lastErr = ⟨attempt, lastErr, [], 0⟩ := rfl

theorem sendRetryGo_success (send : Nat → SendOutcome) (f attempt : Nat)
    (lastErr : Option JsError) (s : String) (hs : send (attempt + 1) = .success s) :
    sendRetryGo send (f + 1) attempt lastErr = ⟨attempt + 1, none, [], 0⟩ := by
  simp [sendRetryGo, hs]

theorem sendRetryGo_fail_other (send : Nat → SendOutcome) (f attempt : Nat)
    (lastErr : Option JsError) (e : JsError) (hs : send (attempt + 1) = .failure e)
    (hb : isBlockhashMsg e.message = false) :
    sendRetryGo send (f + 1) attempt lastErr = ⟨attempt + 1, some e, [], 0⟩ := by
  simp [sendRetryGo, hs, hb]

theorem sendRetryGo_fail_blockhash (send : Nat → SendOutcome) (f attempt : Nat)
    (lastErr : Option JsError) (e : JsError) (hs : send (attempt + 1) = .failure e)
    (hb : isBlockhashMsg e.message = true) :
    sendRetryGo send (f + 1) attempt lastErr =
      ⟨(sendRetryGo send f (attempt + 1) (some e)).attemptsMade,
        (sendRetryGo send f (attempt + 1) (some e)).lastErr,
        800 * (attempt + 1) :: (sendRetryGo send f (attempt + 1) (some e)).retryDelaysMs,
        (sendRetryGo send f (attempt + 1) (some e)).blockhashRefreshes + 1⟩ := by
  simp [sendRetryGo, hs, hb]

theorem sendRetryGo_attempts_le (send : Nat → SendOutcome) :
    ∀ fuel attempt lastErr,
      (sendRetryGo send fuel attempt lastErr).attemptsMade ≤ attempt + fuel := by
  intro fuel
  induction fuel with
  | zero =>
    intro attempt lastErr
    rw [sendRetryGo_zero]
    show attempt ≤ attempt + 0
    omega
  | succ f ih =>
    intro attempt lastErr
    cases hsend : send (attempt + 1) with
    | success s =>
      rw [sendRetryGo_success send f attempt lastErr s hsend]
      show attempt + 1 ≤ attempt + (f + 1)
      omega
    | failure e =>
      by_cases hb : isBlockhashMsg e.message
      · rw [sendRetryGo_fail_blockhash send f attempt lastErr e hsend hb]
        show (sendRetryGo send f (attempt + 1) (some e)).attemptsMade ≤ attempt + (f + 1)
        have := ih (attempt + 1) (some e)
        omega
      · rw [sendRetryGo_fail_other send f attempt lastErr e hsend (by simpa using hb)]
        show attempt + 1 ≤ attempt + (f + 1)
        omega

theorem sendRetryGo_attempts_ge (send : Nat → SendOutcome) :
    ∀ fuel attempt lastErr, 0 < fuel →
      attempt + 1 ≤ (sendRetryGo send fuel attempt lastErr).attemptsMade := by
  intro fuel
  induction fuel with
  | zero => intro _ _ h; omega
  | succ f ih =>
    intro attempt lastErr _
    cases hsend : send (attempt + 1) with
    | success s =>
      rw [sendRetryGo_success send f attempt lastErr s hsend]
    | failure e =>
      by_cases hb : isBlockhashMsg e.message
      · rw [sendRetryGo_fail_blockhash send f attempt lastErr e hsend hb]
        show attempt + 1 ≤ (sendRetryGo send f (attempt + 1) (some e)).attemptsMade
        rcases Nat.eq_zero_or_pos f with hf | hf
        · subst hf; rw [sendRetryGo_zero]
        · have := ih (attempt + 1) (some e) hf
          omega
      · rw [sendRetryGo_fail_other send f attempt lastErr e hsend (by simpa using hb)]

theorem sendRetryGo_all_fail (send : Nat → SendOutcome)
    (hfail : ∀ n, ∃ e, send n = .failure e) :
    ∀ fuel attempt lastErr, 0 < fuel →
      ∃ e, send (sendRetryGo send fuel attempt lastErr).attemptsMade = .failure e ∧
        (sendRetryGo send fuel attempt lastErr).lastErr = some e := by
  intro fuel
  induction fuel with
  | zero => intro _ _ h; omega
  | succ f ih =>
    intro attempt lastErr _
    obtain ⟨e, he⟩ := hfail (attempt + 1)
    by_cases hb : isBlockhashMsg e.message
    · rw [sendRetryGo_fail_blockhash send f attempt lastErr e he hb]
      rcases Nat.eq_zero_or_pos f with hf | hf
      · subst hf
        rw [sendRetryGo_zero]
        exact ⟨e, he, rfl⟩
      · obtain ⟨e2, he2, hl2⟩ := ih (attempt + 1) (some e) hf
        exact ⟨e2, he2, hl2⟩
    · rw [sendRetryGo_fail_other send f attempt lastErr e he (by simpa using hb)]
      exact ⟨e, he, rfl⟩

theorem sendRetryGo_delay_linear (send : Nat → SendOutcome) :
    ∀ fuel attempt lastErr i,
      i < (sendRetryGo send fuel attempt lastErr).retryDelaysMs.length →
      (sendRetryGo send fuel attempt lastErr).retryDelaysMs.get? i =
        some (800 * (attempt + i + 1)) := by
  intro fuel
  induction fuel with
  | zero => intro attempt lastErr i h; rw [sendRetryGo_zero] at h; simp at h
  | succ f ih =>
    intro attempt lastErr i h
    cases hsend : send (attempt + 1) with
    | success s =>
      rw [sendRetryGo_success send f attempt lastErr s hsend] at h
      simp at h
    | failure e =>
      by_cases hb : isBlockhashMsg e.message
      · rw [sendRetryGo_fail_blockhash send f attempt lastErr e hsend hb] at h ⊢
        cases i with
        | zero =>
          show (800 * (attempt + 1) :: _).get? 0 = some (800 * (attempt + 0 + 1))
          rw [List.get?_cons_zero]
        | succ j =>
          have hj : j < (sendRetryGo send f (attempt + 1) (some e)).retryDelaysMs.length := by
            simpa using h
          have h2 := ih (attempt + 1) (some e) j hj
          show (800 * (attempt + 1) :: _).get? (j + 1) = some (800 * (attempt + (j + 1) + 1))
          rw [List.get?_cons_succ, h2]
          exact congrArg some (by ring)
      · rw [sendRetryGo_fail_other send f attempt lastErr e hsend (by simpa using hb)] at h
        simp at h

/-- C1: the `createCampaign` retry loop makes at most 4 attempts
(`maxAttempts = 4`); if every attempt would fail, the loop stops with
`lastErr` holding the error of its final attempt and `if (lastErr) throw
lastErr` surfaces exactly that error instead of retrying further. -/
theorem createCampaign_retry_at_most_four (send : Nat → SendOutcome)
    (hfail : ∀ n, ∃ e, send n = .failure e) :
    (sendRetry send).attemptsMade ≤ 4 ∧
      ∃ e, send (sendRetry send).attemptsMade = .failure e ∧
        sendPhaseResult send = .error e := by
  constructor
  · simpa [sendRetry] using sendRetryGo_attempts_le send 4 0 none
  · obtain ⟨e, he, hl⟩ := sendRetryGo_all_fail send hfail 4 0 none (by omega)
    refine ⟨e, he, ?_⟩
    simp only [sendPhaseResult, sendRetry, hl]

/-- C1 witness: with a send that always fails with a non-retryable error,
the loop stops within 4 attempts and throws that error. -/
theorem createCampaign_retry_at_most_four_witness :
    (sendRetry fun _ => .failure ⟨"boom", none, none, none⟩).attemptsMade ≤ 4 ∧
      ∃ e, (fun _ => SendOutcome.failure ⟨"boom", none, none, none⟩)
            (sendRetry fun _ => .failure ⟨"boom", none, none, none⟩).attemptsMade = .failure e ∧
        sendPhaseResult (fun _ => .failure ⟨"boom", none, none, none⟩) = .error e :=
  createCampaign_retry_at_most_four (fun _ => .failure ⟨"boom", none, none, none⟩)
    (fun _ => ⟨⟨"boom", none, none, none⟩, rfl⟩)

/-- C2 counterexample: when every attempt fails with `Blockhash not found`,
the delays the loop sleeps are `[800, 1600, 2400, 3200]` ms — the wait grows
with the attempt number, so it is not one fixed constant duration. -/
theorem retry_delay_not_constant :
    (sendRetry fun _ => .failure ⟨"Blockhash not found", none, none, none⟩).retryDelaysMs =
        [800, 1600, 2400, 3200] ∧
      (sendRetry fun _ => .failure ⟨"Blockhash not found", none, none, none⟩).retryDelaysMs ≠
        List.replicate 4 800 := by
  constructor
  · decide
  · decide

/-- C2 amended: the delay slept before the next retry is not a fixed
constant but linear in the attempt number: the i-th slept delay (0-based)
is `800 * (i + 1)` milliseconds, exactly `800 * attempt` in the source. -/
theorem retry_delay_linear_backoff (send : Nat → SendOutcome) (i : Nat)
    (h : i < (sendRetry send).retryDelaysMs.length) :
    (sendRetry send).retryDelaysMs.get? i = some (800 * (i + 1)) := by
  have := sendRetryGo_delay_linear send 4 0 none i h
  simpa [sendRetry] using this

/-- C2 amended witness: with an always-stale send the second slept delay is
`800 * 2 = 1600` ms. -/
theorem retry_delay_linear_backoff_witness :
    1 < (sendRetry fun _ => .failure ⟨"Blockhash not found", none, none, none⟩).retryDelaysMs.length ∧
      (sendRetry fun _ => .failure ⟨"Blockhash not found", none, none, none⟩).retryDelaysMs.get? 1 =
        some (800 * (1 + 1)) :=
  ⟨by decide, retry_delay_linear_backoff (fun _ => .failure ⟨"Blockhash not found", none, none, none⟩) 1 (by decide)⟩

/-- C3: the loop retries a failed send exactly when the error message
contains `Blockhash not found` or `blockhash expired` — on such a first
failure it refreshes the blockhash and makes a second attempt, while on any
other first failure it stops after that single attempt, `lastErr` is that
error, and the catch handler's status message for that error is what the
user sees. -/
theorem createCampaign_retry_iff_blockhash (send : Nat → SendOutcome) (e : JsError)
    (h1 : send 1 = .failure e) :
    (isBlockhashMsg e.message = false →
        sendRetry send = ⟨1, some e, [], 0⟩ ∧
          createCampaignSendStatus send = createCatchStatus e) ∧
      (isBlockhashMsg e.message = true →
        2 ≤ (sendRetry send).attemptsMade ∧ 1 ≤ (sendRetry send).blockhashRefreshes) := by
  constructor
  · intro hb
    have hres : sendRetry send = ⟨1, some e, [], 0⟩ := by
      show sendRetryGo send (3 + 1) 0 none = _
      rw [sendRetryGo_fail_other send 3 0 none e h1 hb]
    refine ⟨hres, ?_⟩
    simp [createCampaignSendStatus, hres]
  · intro hb
    have heq := sendRetryGo_fail_blockhash send 3 0 none e h1 hb
    constructor
    · show 2 ≤ (sendRetryGo send (3 + 1) 0 none).attemptsMade
      rw [heq]
      show 2 ≤ (sendRetryGo send 3 1 (some e)).attemptsMade
      have hge := sendRetryGo_attempts_ge send 3 1 (some e) (by omega)
      omega
    · show 1 ≤ (sendRetryGo send (3 + 1) 0 none).blockhashRefreshes
      rw [heq]
      show 1 ≤ (sendRetryGo send 3 1 (some e)).blockhashRefreshes + 1
      omega

/-- C3 witness: a first failure with `User rejected the request` (not a
blockhash message) stops the loop after one attempt and the status is the
user-cancellation banner. -/
theorem createCampaign_retry_iff_blockhash_witness :
    (isBlockhashMsg "User rejected the request" = false →
        sendRetry (fun _ => .failure ⟨"User rejected the request", none, none, none⟩) =
            ⟨1, some ⟨"User rejected the request", none, none, none⟩, [], 0⟩ ∧
          createCampaignSendStatus (fun _ => .failure ⟨"User rejected the request", none, none, none⟩) =
            createCatchStatus ⟨"User rejected the request", none, none, none⟩) ∧
      (isBlockhashMsg "User rejected the request" = true →
        2 ≤ (sendRetry fun _ => .failure ⟨"User rejected the request", none, none, none⟩).attemptsMade ∧
          1 ≤ (sendRetry fun _ => .failure ⟨"User rejected the request", none, none, none⟩).blockhashRefreshes) :=
  createCampaign_retry_iff_blockhash
    (fun _ => .failure ⟨"User rejected the request", none, none, none⟩)
    ⟨"User rejected the request", none, none, none⟩ rfl

/-- A call made by `ensureBalance` against the connection: the balance
check, the faucet airdrop request, the confirmation, the 1000 ms wait, in
the order the function issues them. -/
inductive ConnCall where
  | getBalanceCall
  | requestAirdropCall (lamports : Int)
  | confirmTransactionCall (sig : String)
  | sleepCall (ms : Nat)
deriving DecidableEq

/-- The connection as `ensureBalance` exercises it: its first
`getBalance`, the `requestAirdrop`, the `confirmTransaction` of the
returned signature, and the post-sleep `getBalance`, each able to throw. -/
structure AirdropConn where
  balance : Except JsError Int
  airdrop : Except JsError String
  confirm : String → Except JsError Unit
  balanceAfter : Except JsError Int

/-- The body of `ensureBalance` (the inside of its `try`): check the
balance, and if it is strictly below `minLamports`, request an airdrop of
`minLamports`, confirm it, sleep 1000 ms, and re-read the balance.  Returns
the calls issued and the error thrown, if any. -/
def ensureBalanceBody (conn : AirdropConn) (minLamports : Int) :
    List ConnCall × Option JsError :=
  match conn.balance with
  | .error e => ([.getBalanceCall], some e)
  | .ok balance =>
    if balance < minLamports then
      match conn.airdrop with
      | .error e => ([.getBalanceCall, .requestAirdropCall minLamports], some e)
      | .ok sig =>
        match conn.confirm sig with
        | .error e =>
          ([.getBalanceCall, .requestAirdropCall minLamports, .confirmTransactionCall sig], some e)
        | .ok _ =>
          match conn.balanceAfter with
          | .error e =>
            ([.getBalanceCall, .requestAirdropCall minLamports, .confirmTransactionCall sig,
              .sleepCall 1000, .getBalanceCall], some e)
          | .ok _ =>
            ([.getBalanceCall, .requestAirdropCall minLamports, .confirmTransactionCall sig,
              .sleepCall 1000, .getBalanceCall], none)
    else ([.getBalanceCall], none)

/-- `ensureBalance` itself: the whole body sits in a `try` whose `catch`
only logs `Airdrop/ensure balance failed: …`, so the function always
returns normally, yielding the calls issued and the logged warning. -/
def ensureBalance (conn : AirdropConn) (minLamports : Int) :
    List ConnCall × Option String :=
  match ensureBalanceBody conn minLamports with
  | (trace, some e) => (trace, some ("Airdrop/ensure balance failed: " ++ e.message))
  | (trace, none) => (trace, none)

/-- The balance threshold `createCampaign` passes to `ensureBalance`:
`Math.floor(0.1 * LAMPORTS_PER_SOL)` lamports. -/
def thresholdLamports : Int := 100000000

/-- `createCampaign` from its `ensureBalance` call onward: the helper is
awaited (its calls and warning recorded), then the send-with-retry phase
runs and produces the status banner. -/
def createCampaignFromEnsure (conn : AirdropConn) (send : Nat → SendOutcome) :
    (List ConnCall × Option String) × String :=
  (ensureBalance conn thresholdLamports, createCampaignSendStatus send)

/-- C4: with the wallet balance read as `b`, `ensureBalance` requests a
faucet airdrop if and only if `b` is strictly below `minLamports`; when
`b ≥ minLamports` it performs only the balance check, with no faucet call. -/
theorem ensureBalance_airdrop_iff_below (conn : AirdropConn) (minLamports b : Int)
    (h : conn.balance = .ok b) :
    ((ConnCall.requestAirdropCall minLamports) ∈ (ensureBalance conn minLamports).1 ↔
        b < minLamports) ∧
      (¬ b < minLamports → (ensureBalance conn minLamports).1 = [.getBalanceCall]) := by
  by_cases hlt : b < minLamports
  · refine ⟨⟨fun _ => hlt, fun _ => ?_⟩, fun hc => absurd hlt hc⟩
    simp only [ensureBalance, ensureBalanceBody, h, if_pos hlt]
    cases conn.airdrop with
    | error e => simp
    | ok sig =>
      cases hcf : conn.confirm sig with
      | error e => simp [hcf]
      | ok u =>
        cases conn.balanceAfter with
        | error e => simp [hcf]
        | ok b2 => simp [hcf]
  · have htrace : (ensureBalance conn minLamports).1 = [.getBalanceCall] := by
      simp [ensureBalance, ensureBalanceBody, h, if_neg hlt]
    refine ⟨⟨fun hmem => ?_, fun hlt2 => absurd hlt2 hlt⟩, fun _ => htrace⟩
    rw [htrace] at hmem
    simp at hmem

/-- C4 witness: with a balance of 5 below a threshold of 10 the airdrop is
requested, and with the same balance at threshold 5 the trace is only the
balance check. -/
theorem ensureBalance_airdrop_iff_below_witness :
    ((ConnCall.requestAirdropCall 10) ∈
        (ensureBalance ⟨.ok 5, .ok "sig", fun _ => .ok (), .ok 10⟩ 10).1 ↔ (5 : Int) < 10) ∧
      (¬ (5 : Int) < 10 →
        (ensureBalance ⟨.ok 5, .ok "sig", fun _ => .ok (), .ok 10⟩ 10).1 = [.getBalanceCall]) :=
  ensureBalance_airdrop_iff_below ⟨.ok 5, .ok "sig", fun _ => .ok (), .ok 10⟩ 10 5 rfl

/-- C9: `ensureBalance` never propagates an error: whatever the body
throws is converted into the logged warning, every call to it returns
normally, and the send phase of `createCampaign` that follows it is the
same for every faucet outcome. -/
theorem ensureBalance_never_throws (conn : AirdropConn) (send : Nat → SendOutcome) :
    ((createCampaignFromEnsure conn send).2 = createCampaignSendStatus send) ∧
      (∀ e, (ensureBalanceBody conn thresholdLamports).2 = some e →
        (ensureBalance conn thresholdLamports).2 =
          some ("Airdrop/ensure balance failed: " ++ e.message)) ∧
      ((ensureBalanceBody conn thresholdLamports).2 = none →
        (ensureBalance conn thresholdLamports).2 = none) := by
  refine ⟨rfl, ?_, ?_⟩
  · intro e he
    simp only [ensureBalance]
    cases hbody : ensureBalanceBody conn thresholdLamports with
    | mk trace err =>
      rw [hbody] at he
      simp only at he
      subst he
      rfl
  · intro hn
    simp only [ensureBalance]
    cases hbody : ensureBalanceBody conn thresholdLamports with
    | mk trace err =>
      rw [hbody] at hn
      simp only at hn
      subst hn
      rfl

/-- C9 witness: a connection whose very first `getBalance` throws still
lets `createCampaign` proceed: the warning is logged and the send status is
untouched. -/
theorem ensureBalance_never_throws_witness :
    ((createCampaignFromEnsure
          ⟨.error ⟨"rpc down", none, none, none⟩, .ok "s", fun _ => .ok (), .ok 0⟩
          (fun _ => .success "sig")).2 =
        createCampaignSendStatus (fun _ => .success "sig")) ∧
      (∀ e, (ensureBalanceBody
            ⟨.error ⟨"rpc down", none, none, none⟩, .ok "s", fun _ => .ok (), .ok 0⟩
            thresholdLamports).2 = some e →
        (ensureBalance
            ⟨.error ⟨"rpc down", none, none, none⟩, .ok "s", fun _ => .ok (), .ok 0⟩
            thresholdLamports).2 =
          some ("Airdrop/ensure balance failed: " ++ e.message)) ∧
      ((ensureBalanceBody
            ⟨.error ⟨"rpc down", none, none, none⟩, .ok "s", fun _ => .ok (), .ok 0⟩
            thresholdLamports).2 = none →
        (ensureBalance
            ⟨.error ⟨"rpc down", none, none, none⟩, .ok "s", fun _ => .ok (), .ok 0⟩
            thresholdLamports).2 = none) :=
  ensureBalance_never_throws
    ⟨.error ⟨"rpc down", none, none, none⟩, .ok "s", fun _ => .ok (), .ok 0⟩
    (fun _ => .success "sig")

/-- Value of a base58 character (Bitcoin alphabet
`123456789ABCDEFGHJKLMNPQRSTUVWXYZabcdefghijkmnopqrstuvwxyz`), `none` for a
character outside the alphabet. -/
def base58CharValue (c : Char) : Option Nat :=
  let n := c.toNat
  if 49 ≤ n ∧ n ≤ 57 then some (n - 49)
  else if 65 ≤ n ∧ n ≤ 72 then some (n - 65 + 9)
  else if 74 ≤ n ∧ n ≤ 78 then some (n - 74 + 17)
  else if 80 ≤ n ∧ n ≤ 90 then some (n - 80 + 22)
  else if 97 ≤ n ∧ n ≤ 107 then some (n - 97 + 33)
  else if 109 ≤ n ∧ n ≤ 122 then some (n - 109 + 44)
  else none

/-- Accumulated numeric value of a base58 digit string, `none` on the first
invalid character. -/
def base58Value : Nat → List Char → Option Nat
  | acc, [] => some acc
  | acc, c :: rest =>
    match base58CharValue c with
    | none => none
    | some v => base58Value (acc * 58 + v) rest

/-- Big-endian base-256 digits of `n` (empty for 0); `fuel` bounds the
recursion and 64 always suffices for a 44-character base58 string. -/
def natToBytesBE : Nat → Nat → List Nat
  | 0, _ => []
  | fuel + 1, n => if n = 0 then [] else natToBytesBE fuel (n / 256) ++ [n % 256]

/-- base58 decoding: leading `1`s become leading zero bytes, the rest is
the big-endian expansion of the digit value. -/
def base58Decode (s : String) : Option (List Nat) :=
  match base58Value 0 s.toList with
  | none => none
  | some n =>
    let z := (s.toList.takeWhile (fun c => c = '1')).length
    some (List.replicate z 0 ++ natToBytesBE 64 n)

/-- A Solana public key: the 32 bytes a valid base58 string decodes to. -/
structure PubKey where
  bytes : List Nat
deriving DecidableEq

/-- `new PublicKey(s)` on a string: decode base58 and require exactly 32
bytes; `none` models the constructor throwing. -/
def mkPublicKey (s : String) : Option PubKey :=
  match base58Decode s with
  | none => none
  | some bs => if bs.length = 32 then some ⟨bs⟩ else none

/-- The constant fallback program identifier of every iteration. -/
def FALLBACK_PROGRAM_ID : String := "GgEMjntpZKxcUxdkGkJzqkufYzdoSmezRJWHVTk3dr2h"

/-- The module-level `programID` initialisation: when `idlData?.address` is
a truthy string, `new PublicKey(address)` is attempted (a throw is caught,
leaving `programID` null); otherwise `programID` stays null. -/
def initProgramID (address : Option String) : Option PubKey :=
  match address with
  | some s => if s = "" then none else mkPublicKey s
  | none => none

/-- `const runtimeProgramID = programID ?? new PublicKey(FALLBACK_PROGRAM_ID)`
followed by the `if (!runtimeProgramID) throw new Error('Program ID is not
available. …')` guard, as `createCampaign`, `getCampaigns` and
`donateToCampaign` all compute it: the error value stands for the
unavailable branch, reachable only if the fallback key failed to construct. -/
def getRuntimeProgramID (address : Option String) : Except JsError PubKey :=
  match initProgramID address with
  | some k => .ok k
  | none =>
    match mkPublicKey FALLBACK_PROGRAM_ID with
    | some k => .ok k
    | none => .error ⟨"Program ID is not available. Please check idl.js.", none, none, none⟩

theorem fallback_program_id_valid : (mkPublicKey FALLBACK_PROGRAM_ID).isSome = true := by
  decide

/-- C6: the runtime program identifier is the key built from the IDL
address whenever that address is a (truthy) string from which a key can be
constructed, and otherwise the key built from the constant fallback string;
the fallback string decodes to a valid 32-byte key, so in every case some
identifier is produced and the `Program ID is not available` branch never
fires. -/
theorem runtime_program_id_always_available (address : Option String) :
    (∀ k, initProgramID address = some k → getRuntimeProgramID address = .ok k) ∧
      (initProgramID address = none →
        ∃ kf, mkPublicKey FALLBACK_PROGRAM_ID = some kf ∧
          getRuntimeProgramID address = .ok kf) ∧
      (∃ k, getRuntimeProgramID address = .ok k) := by
  have hfb : ∃ kf, mkPublicKey FALLBACK_PROGRAM_ID = some kf := by
    have := fallback_program_id_valid
    cases hk : mkPublicKey FALLBACK_PROGRAM_ID with
    | none => rw [hk] at this; simp at this
    | some k => exact ⟨k, rfl⟩
  obtain ⟨kf, hkf⟩ := hfb
  refine ⟨?_, ?_, ?_⟩
  · intro k hk
    simp [getRuntimeProgramID, hk]
  · intro hn
    exact ⟨kf, hkf, by simp [getRuntimeProgramID, hn, hkf]⟩
  · cases hi : initProgramID address with
    | some k => exact ⟨k, by simp [getRuntimeProgramID, hi]⟩
    | none => exact ⟨kf, by simp [getRuntimeProgramID, hi, hkf]⟩

/-- C6 witness: `"0"` is not valid base58, so at that IDL address the
module-level `programID` stays null and the resolved identifier is the
fallback key. -/
theorem runtime_program_id_always_available_witness :
    initProgramID (some "0") = none ∧
      ∃ kf, mkPublicKey FALLBACK_PROGRAM_ID = some kf ∧
        getRuntimeProgramID (some "0") = .ok kf :=
  ⟨by decide, (runtime_program_id_always_available (some "0")).2.1 (by decide)⟩

/-- The decoded `campaign` account data as the page displays it. -/
structure CampaignData where
  admin : String
  name : String
  description : String
  amountDonated : Int
deriving DecidableEq

/-- An entry of the `campaigns` state: the account public key (as base58
text) and its decoded data. -/
structure CampaignAccount where
  publicKey : String
  account : CampaignData
deriving DecidableEq

/-- The `for (const campaignAccount of campaignAccounts)` loop of
`getCampaigns`: each account is fetched in its own `try`; a success is
pushed onto `campaignsData`, a failure is logged and skipped, and the loop
continues with the remaining accounts either way. -/
def processCampaignAccounts (fetch : String → Except JsError CampaignData) :
    List String → List CampaignAccount
  | [] => []
  | pk :: rest =>
    match fetch pk with
    | .ok acct => ⟨pk, acct⟩ :: processCampaignAccounts fetch rest
    | .error _ => processCampaignAccounts fetch rest

/-- The component state that `getCampaigns` touches. -/
structure PageState where
  walletStatus : Option String
  isWalletConnected : Bool
  publicKey : Option String
  campaigns : List CampaignAccount
  loading : Bool
deriving DecidableEq

/-- A network request `getCampaigns` can issue: the program-account scan
and the per-account campaign fetch. -/
inductive NetRequest where
  | getProgramAccountsReq (programId : PubKey)
  | fetchCampaignReq (pubkey : String)
deriving DecidableEq

/-- The environment of one `getCampaigns` run: the IDL address feeding the
program id, `getProvider()` (which throws when the wallet is missing or
disconnected), `getProgramAccounts`, and the per-account fetch. -/
structure CampaignFetchEnv where
  idlAddress : Option String
  provider : Except JsError Unit
  programAccounts : Except JsError (List String)
  fetchCampaign : String → Except JsError CampaignData

/-- `getCampaigns` of `page.tsx`: bail out unchanged when the wallet is not
connected; otherwise set `loading`, resolve provider and program id, scan
the program accounts, decode each one with per-account error skipping,
store the result in `campaigns`, report any thrown error in `walletStatus`
(`Error fetching campaigns: …`), and clear `loading` in the `finally`. -/
def getCampaignsRun (env : CampaignFetchEnv) (st : PageState) :
    PageState × List NetRequest :=
  if st.isWalletConnected = false then (st, [])
  else
    match env.provider with
    | .error e =>
      ({ st with walletStatus := some ("Error fetching campaigns: " ++ e.message),
                 loading := false }, [])
    | .ok _ =>
      match getRuntimeProgramID env.idlAddress with
      | .error e =>
        ({ st with walletStatus := some ("Error fetching campaigns: " ++ e.message),
                   loading := false }, [])
      | .ok pid =>
        match env.programAccounts with
        | .error e =>
          ({ st with walletStatus := some ("Error fetching campaigns: " ++ e.message),
                     loading := false }, [.getProgramAccountsReq pid])
        | .ok accts =>
          ({ st with campaigns := processCampaignAccounts env.fetchCampaign accts,
                     loading := false },
            .getProgramAccountsReq pid :: accts.map .fetchCampaignReq)

/-- C5: the campaign list `getCampaigns` builds consists of exactly the
accounts whose fetch succeeded, in scan order: the loop is the `filterMap`
of the per-account fetch, so one failing account is skipped without
aborting the rest, and an entry appears iff its key was scanned and its
fetch decoded. -/
theorem getCampaigns_keeps_exactly_decoded (fetch : String → Except JsError CampaignData)
    (accounts : List String) :
    processCampaignAccounts fetch accounts =
        accounts.filterMap (fun pk =>
          match fetch pk with
          | .ok a => some ⟨pk, a⟩
          | .error _ => none) ∧
      ∀ pk a, (CampaignAccount.mk pk a) ∈ processCampaignAccounts fetch accounts ↔
        pk ∈ accounts ∧ fetch pk = .ok a := by
  have hmap : ∀ l : List String, processCampaignAccounts fetch l =
      l.filterMap (fun pk =>
        match fetch pk with
        | .ok a => some ⟨pk, a⟩
        | .error _ => none) := by
    intro l
    induction l with
    | nil => rfl
    | cons pk rest ih =>
      cases hf : fetch pk with
      | ok a => simp [processCampaignAccounts, hf, ih, List.filterMap_cons]
      | error e => simp [processCampaignAccounts, hf, ih, List.filterMap_cons]
  refine ⟨hmap accounts, ?_⟩
  intro pk a
  rw [hmap accounts, List.mem_filterMap]
  constructor
  · rintro ⟨pk2, hpk2, hmatch⟩
    cases hf : fetch pk2 with
    | ok a2 =>
      rw [hf] at hmatch
      simp only [Option.some.injEq, CampaignAccount.mk.injEq] at hmatch
      obtain ⟨hpk, ha⟩ := hmatch
      subst hpk
      subst ha
      exact ⟨hpk2, hf⟩
    | error e => rw [hf] at hmatch; simp at hmatch
  · rintro ⟨hpk, hfetch⟩
    exact ⟨pk, hpk, by rw [hfetch]⟩

/-- C8: when the wallet is not connected, `getCampaigns` returns before
touching anything: the whole component state (campaigns, loading,
walletStatus included) is unchanged and no network request is issued. -/
theorem getCampaigns_disconnected_frame (env : CampaignFetchEnv) (st : PageState)
    (h : st.isWalletConnected = false) :
    getCampaignsRun env st = (st, []) := by
  simp [getCampaignsRun, h]

/-- C8 witness: a disconnected state with stale campaigns and a pending
status is returned untouched, with an empty request trace. -/
theorem getCampaigns_disconnected_frame_witness :
    getCampaignsRun
        ⟨none, .ok (), .ok [], fun _ => .error ⟨"x", none, none, none⟩⟩
        ⟨some "old status", false, some "key", [⟨"c", "n", "d", "a", 7⟩], true⟩ =
      (⟨some "old status", false, some "key", [⟨"c", "n", "d", "a", 7⟩], true⟩, []) :=
  getCampaigns_disconnected_frame
    ⟨none, .ok (), .ok [], fun _ => .error ⟨"x", none, none, none⟩⟩
    ⟨some "old status", false, some "key", [⟨"c", "n", "d", "a", 7⟩], true⟩ rfl

/-- The ghost emoji U+1F47B that ends the `not found` status in `page.tsx`
and in the memoized iteration. -/
def ghostEmoji : String := String.mk [Char.ofNat 128123]

/-- The four characters U+00F0 U+0178 U+2018 U+00BB that end the same
status in the two earlier iterations: the UTF-8 bytes of the ghost emoji
re-read as single-byte characters. -/
def mojibakeGhost : String :=
  String.mk [Char.ofNat 240, Char.ofNat 376, Char.ofNat 8216, Char.ofNat 187]

/-- The `window.solana` object as `checkIfWalletIsConnected` probes it:
absent, present without the Phantom flag, Phantom but disconnected, or
Phantom connected with a public key. -/
inductive WalletObject where
  | absent
  | nonPhantom
  | phantomDisconnected
  | phantomConnected (pubKey : String)
deriving DecidableEq

/-- The assignments a wallet check performs: the `walletStatus` message it
writes, the `isWalletConnected` flag it writes, and the `publicKey` value
it writes (`none` when `setPublicKey` is not called on that branch). -/
structure CheckEffects where
  walletStatus : String
  isWalletConnected : Bool
  publicKey : Option String
deriving DecidableEq

/-- `checkIfWalletIsConnected` of `page.tsx` (the latest iteration):
its direct state assignments per wallet state.  On the connected branch the
source additionally awaits `getCampaigns()`, whose writes concern the
campaign list and depend on the network, not on the wallet object. -/
def checkWalletPage (w : WalletObject) : CheckEffects :=
  match w with
  | .phantomConnected pk => ⟨"Phantom wallet found and connected!", true, some pk⟩
  | .phantomDisconnected => ⟨"Phantom wallet found but not connected.", false, none⟩
  | .nonPhantom =>
    ⟨"Phantom wallet not found. Please install Phantom Wallet " ++ ghostEmoji, false, none⟩
  | .absent =>
    ⟨"Phantom wallet not found. Please install Phantom Wallet " ++ ghostEmoji, false, none⟩

/-- `checkIfWalletIsConnected` of the first unnamed iteration: identical
branching, but its `not found` message stores the ghost emoji as the four
mojibake characters. -/
def checkWalletEarly (w : WalletObject) : CheckEffects :=
  match w with
  | .phantomConnected pk => ⟨"Phantom wallet found and connected!", true, some pk⟩
  | .phantomDisconnected => ⟨"Phantom wallet found but not connected.", false, none⟩
  | .nonPhantom =>
    ⟨"Phantom wallet not found. Please install Phantom Wallet " ++ mojibakeGhost, false, none⟩
  | .absent =>
    ⟨"Phantom wallet not found. Please install Phantom Wallet " ++ mojibakeGhost, false, none⟩

/-- `checkIfWalletIsConnected` of the memoized iteration
(`useWalletConnection`): same branching and messages as `page.tsx`, with
`solana?.isPhantom` in place of `solana && solana.isPhantom`. -/
def checkWalletMemo (w : WalletObject) : CheckEffects :=
  match w with
  | .phantomConnected pk => ⟨"Phantom wallet found and connected!", true, some pk⟩
  | .phantomDisconnected => ⟨"Phantom wallet found but not connected.", false, none⟩
  | .nonPhantom =>
    ⟨"Phantom wallet not found. Please install Phantom Wallet " ++ ghostEmoji, false, none⟩
  | .absent =>
    ⟨"Phantom wallet not found. Please install Phantom Wallet " ++ ghostEmoji, false, none⟩

/-- C7 counterexample: with the wallet absent, the first iteration's check
writes a different `walletStatus` string than `page.tsx` — its `not found`
message ends in the mojibake bytes instead of the ghost emoji — so the
three versions are not behaviorally equal on every wallet state. -/
theorem checkWallet_status_differs :
    checkWalletEarly .absent ≠ checkWalletPage .absent := by
  decide

/-- C7 amended: `page.tsx` and the memoized iteration assign identically in
every wallet state; the first iteration assigns the same connection flag
and public key everywhere and the same status on the disconnected and
connected branches, its `not found` status differing only in the ghost
emoji's encoding. -/
theorem checkWallet_equiv_up_to_emoji (w : WalletObject) (pk : String) :
    checkWalletPage w = checkWalletMemo w ∧
      (checkWalletEarly w).isWalletConnected = (checkWalletPage w).isWalletConnected ∧
      (checkWalletEarly w).publicKey = (checkWalletPage w).publicKey ∧
      checkWalletEarly .phantomDisconnected = checkWalletPage .phantomDisconnected ∧
      checkWalletEarly (.phantomConnected pk) = checkWalletPage (.phantomConnected pk) := by
  cases w <;> simp [checkWalletPage, checkWalletEarly, checkWalletMemo]

/-- Longest leading run of decimal digits of a character list, with the
rest. -/
def takeDigits : List Char → List Nat × List Char
  | [] => ([], [])
  | c :: rest =>
    if 48 ≤ c.toNat ∧ c.toNat ≤ 57 then
      match takeDigits rest with
      | (ds, r) => ((c.toNat - 48) :: ds, r)
    else ([], c :: rest)

/-- Numeric value of a digit list read left to right. -/
def digitsToNat (ds : List Nat) : Nat :=
  ds.foldl (fun a d => a * 10 + d) 0

/-- Model of JavaScript `parseFloat` on the plain decimal forms the
donation input field produces (optional minus sign, integer digits,
optional fractional digits): `none` models `NaN`, and exact rationals
stand in for the binary doubles, which agree on the validity comparisons
the component makes at these magnitudes. -/
def jsParseFloat (s : String) : Option Rat :=
  let cs := s.toList
  let body := match cs with
    | '-' :: r => (true, r)
    | _ => (false, cs)
  let ipRest := takeDigits body.2
  let fp := match ipRest.2 with
    | '.' :: r => (takeDigits r).1
    | _ => []
  if ipRest.1 = [] ∧ fp = [] then none
  else
    let v : Rat := mkRat (digitsToNat ipRest.1 * 10 ^ fp.length + digitsToNat fp) (10 ^ fp.length)
    some (if body.1 then -v else v)

/-- The donation-amount validation `isNaN(amount) || amount <= 0`. -/
def amountInvalid : Option Rat → Bool
  | none => true
  | some a => decide (a ≤ 0)

/-- The component state `donateToCampaign` touches: the in-progress marker
`donatingCampaign`, the `donationAmount` input, and `walletStatus`. -/
structure DonateState where
  donatingCampaign : Option String
  donationAmount : String
  walletStatus : Option String
deriving DecidableEq

/-- The environment of one donation: the IDL address, `getProvider()`, the
balance read, `getLatestBlockhash`, `sendAndConfirm`, and the JavaScript
number-to-string rendering used in the interpolated messages. -/
structure DonateEnv where
  idlAddress : Option String
  provider : Except JsError Unit
  balance : Except JsError Int
  blockhash : Except JsError String
  sendResult : Except JsError String
  showNum : Rat → String

/-- `LAMPORTS_PER_SOL` as an exact rational. -/
def lamportsPerSolRat : Rat := mkRat 1000000000 1

/-- The interpolated `Insufficient balance. …` error message
(`balance / LAMPORTS_PER_SOL` rendered exactly). -/
def insufficientDonateMsg (fmt : Rat → String) (balance : Int) (amount : Rat) : String :=
  "Insufficient balance. You have " ++ fmt (mkRat balance 1000000000) ++
    " SOL but trying to donate " ++ fmt amount ++ " SOL"

/-- The interpolated success banner. -/
def donateSuccessMsg (fmt : Rat → String) (amount : Rat) : String :=
  "Successfully donated " ++ fmt amount ++ " SOL to campaign!"

/-- The donation steps both versions share once the in-progress marker is
set: resolve provider and program id, convert the amount to lamports with
`Math.floor(amount * LAMPORTS_PER_SOL)`, read and check the balance, fetch
a blockhash, send and confirm, and on success write the success banner.
Returns the state reached and the error thrown, if any. -/
def donateSendSteps (env : DonateEnv) (pk : String) (amount : Rat) (st : DonateState) :
    DonateState × Option JsError :=
  let st1 := { st with donatingCampaign := some pk }
  match env.provider with
  | .error e => (st1, some e)
  | .ok _ =>
    match getRuntimeProgramID env.idlAddress with
    | .error e => (st1, some e)
    | .ok _ =>
      let lamports : Int := Rat.floor (amount * lamportsPerSolRat)
      match env.balance with
      | .error e => (st1, some e)
      | .ok b =>
        if b < lamports then
          (st1, some ⟨insufficientDonateMsg env.showNum b amount, none, none, none⟩)
        else
          match env.blockhash with
          | .error e => (st1, some e)
          | .ok _ =>
            match env.sendResult with
            | .error e => (st1, some e)
            | .ok _ =>
              ({ st1 with walletStatus := some (donateSuccessMsg env.showNum amount) }, none)

/-- The catch handler of `donateToCampaign` in `page.tsx`. -/
def donateCatchStatusPage (e : JsError) : String :=
  if jsIncludes e.message "User rejected" || jsIncludes e.message "User rejected the request" then
    "Donation cancelled by user."
  else "Error donating to campaign: " ++ e.message

/-- The catch handler of the memoized iteration's `donateToCampaign`. -/
def donateCatchStatusMemo (e : JsError) : String :=
  if jsIncludes e.message "User rejected" then "Donation cancelled by user."
  else "Error donating to campaign: " ++ e.message

/-- The `try` body of `donateToCampaign` in `page.tsx`: the wallet guard
throws inside the try, the amount validation returns inside the try (so the
`finally` still runs), then the shared donation steps. -/
def donateTryBody (connected : Bool) (publicKey : Option String) (env : DonateEnv)
    (pk : String) (st : DonateState) : DonateState × Option JsError :=
  if !(connected && publicKey.isSome) then
    (st, some ⟨"Wallet is not connected. Please connect the wallet first.", none, none, none⟩)
  else
    let amt := jsParseFloat st.donationAmount
    if amountInvalid amt then
      ({ st with walletStatus := some "Please enter a valid donation amount" }, none)
    else
      donateSendSteps env pk (amt.getD 0) st

/-- `donateToCampaign` of `page.tsx`: try body, catch writing the status,
and a `finally` that always resets `donatingCampaign` to null and
`donationAmount` to `'0.1'` (the trailing `getCampaigns()` refresh touches
only the campaign list). -/
def donateToCampaignPage (connected : Bool) (publicKey : Option String) (env : DonateEnv)
    (pk : String) (st : DonateState) : DonateState :=
  let r := donateTryBody connected publicKey env pk st
  let stC := match r.2 with
    | some e => { r.1 with walletStatus := some (donateCatchStatusPage e) }
    | none => r.1
  { stC with donatingCampaign := none, donationAmount := "0.1" }

/-- `donateToCampaign` of the memoized iteration: the wallet guard and the
amount validation return *before* the `try`, so their paths bypass the
`finally`; only once `setDonatingCampaign` has run does the
try/catch/finally with the reset apply. -/
def donateToCampaignMemo (connected : Bool) (publicKey : Option String) (env : DonateEnv)
    (pk : String) (st : DonateState) : DonateState :=
  if !(connected && publicKey.isSome) then
    { st with walletStatus := some "Wallet is not connected" }
  else
    let amt := jsParseFloat st.donationAmount
    if amountInvalid amt then
      { st with walletStatus := some "Please enter a valid donation amount" }
    else
      let r := donateSendSteps env pk (amt.getD 0) st
      let stC := match r.2 with
        | some e => { r.1 with walletStatus := some (donateCatchStatusMemo e) }
        | none => r.1
      { stC with donatingCampaign := none, donationAmount := "0.1" }

/-- C10 counterexample: in the memoized iteration a call made with the
unparsable amount `"abc"` completes via the pre-`try` validation return, so
`donationAmount` stays `"abc"` (not `'0.1'`) and a previously set
`donatingCampaign` marker is left untouched; the same call in `page.tsx`
resets both. -/
theorem donate_memo_validation_skips_reset :
    (donateToCampaignMemo true (some "w")
          ⟨none, .ok (), .ok 0, .ok "bh", .ok "sig", fun _ => ""⟩ "camp"
          ⟨some "stale", "abc", none⟩).donationAmount = "abc" ∧
      (donateToCampaignMemo true (some "w")
          ⟨none, .ok (), .ok 0, .ok "bh", .ok "sig", fun _ => ""⟩ "camp"
          ⟨some "stale", "abc", none⟩).donatingCampaign = some "stale" ∧
      "abc" ≠ "0.1" ∧
      (donateToCampaignPage true (some "w")
          ⟨none, .ok (), .ok 0, .ok "bh", .ok "sig", fun _ => ""⟩ "camp"
          ⟨some "stale", "abc", none⟩).donationAmount = "0.1" := by
  refine ⟨rfl, rfl, by decide, rfl⟩

/-- C10 amended: in `page.tsx` every completed `donateToCampaign` call
resets `donatingCampaign` to null and `donationAmount` to `'0.1'`; in the
memoized iteration the same holds for every call that passes the wallet and
amount validations (the only ones that set the in-progress marker), while a
call failing either validation returns before the marker is set and leaves
both fields exactly as they were. -/
theorem donate_always_resets_after_marker (connected : Bool) (publicKey : Option String)
    (env : DonateEnv) (pk : String) (st : DonateState) :
    ((donateToCampaignPage connected publicKey env pk st).donatingCampaign = none ∧
        (donateToCampaignPage connected publicKey env pk st).donationAmount = "0.1") ∧
      ((connected && publicKey.isSome) = true →
        amountInvalid (jsParseFloat st.donationAmount) = false →
        (donateToCampaignMemo connected publicKey env pk st).donatingCampaign = none ∧
          (donateToCampaignMemo connected publicKey env pk st).donationAmount = "0.1") ∧
      ((connected && publicKey.isSome) = false ∨
          amountInvalid (jsParseFloat st.donationAmount) = true →
        (donateToCampaignMemo connected publicKey env pk st).donatingCampaign =
            st.donatingCampaign ∧
          (donateToCampaignMemo connected publicKey env pk st).donationAmount =
            st.donationAmount) := by
  refine ⟨⟨rfl, rfl⟩, ?_, ?_⟩
  · intro h1 h2
    constructor
    · simp [donateToCampaignMemo, h1, h2]
    · simp [donateToCampaignMemo, h1, h2]
  · intro h
    by_cases h1 : (connected && publicKey.isSome) = true
    · have h2 : amountInvalid (jsParseFloat st.donationAmount) = true := by
        rcases h with h | h
        · rw [h1] at h; exact absurd h (by simp)
        · exact h
      constructor
      · simp [donateToCampaignMemo, h1, h2]
      · simp [donateToCampaignMemo, h1, h2]
    · have h1f : (connected && publicKey.isSome) = false := by
        cases hcp : (connected && publicKey.isSome) with
        | false => rfl
        | true => exact absurd hcp h1
      constructor
      · simp [donateToCampaignMemo, h1f]
      · simp [donateToCampaignMemo, h1f]

/-- C10 amended witness: a valid call (`'0.1'`) in the memoized iteration
resets both fields, and a call with the invalid amount `'abc'` leaves both
untouched. -/
theorem donate_always_resets_after_marker_witness :
    ((donateToCampaignMemo true (some "w")
            ⟨none, .ok (), .ok 1000000000, .ok "bh", .ok "sig", fun _ => ""⟩ "camp"
            ⟨none, "0.1", none⟩).donatingCampaign = none ∧
        (donateToCampaignMemo true (some "w")
            ⟨none, .ok (), .ok 1000000000, .ok "bh", .ok "sig", fun _ => ""⟩ "camp"
            ⟨none, "0.1", none⟩).donationAmount = "0.1") ∧
      ((donateToCampaignMemo true (some "w")
            ⟨none, .ok (), .ok 1000000000, .ok "bh", .ok "sig", fun _ => ""⟩ "camp"
            ⟨some "x", "abc", none⟩).donatingCampaign = some "x" ∧
        (donateToCampaignMemo true (some "w")
            ⟨none, .ok (), .ok 1000000000, .ok "bh", .ok "sig", fun _ => ""⟩ "camp"
            ⟨some "x", "abc", none⟩).donationAmount = "abc") :=
  ⟨(donate_always_resets_after_marker true (some "w")
      ⟨none, .ok (), .ok 1000000000, .ok "bh", .ok "sig", fun _ => ""⟩ "camp"
      ⟨none, "0.1", none⟩).2.1 rfl (by decide),
    (donate_always_resets_after_marker true (some "w")
      ⟨none, .ok (), .ok 1000000000, .ok "bh", .ok "sig", fun _ => ""⟩ "camp"
      ⟨some "x", "abc", none⟩).2.2 (Or.inr (by decide))⟩
